import Mathlib

/-!
Verification development for the yoga-pose web client (`flask_app/static/js/main.js`).

The file shallowly embeds the two core pieces of the client:

* the highlight-marker smoother `updateHighlightJoints` together with the
  drawing-surface (canvas) context it reads;
* the frame-processing scheduler (`startProcessing` tick, the
  `captureAndProcess` cycle with its exclusive in-flight flag, and the FPS
  accounting), modelled as a step function over an explicit client state and
  driven by traces of events.

JavaScript numbers are modelled as exact rationals; times are integer
milliseconds.  The one place the source uses `Math.sqrt` — the snap-radius
check `Math.sqrt(dx*dx + dy*dy) < snapRadiusPx` — is embedded as the
equivalent squared comparison `dx*dx + dy*dy < snapRadiusPx * snapRadiusPx`
so that the development stays executable; the lemma
`sqrt_lt_iff_sq_lt_sq` below records that the two forms agree.
-/

/-- A highlight marker as produced by the inference service and persisted by
the smoother: a landmark name plus normalized coordinates in `[0,1]`. -/
structure Marker where
  name : String
  x : ℚ
  y : ℚ
deriving DecidableEq, Repr

/-- The drawing surface dimensions (`canvas.width`, `canvas.height`) used to
convert normalized coordinates to pixel space at comparison time. -/
structure Canvas where
  width : ℚ
  height : ℚ
deriving DecidableEq, Repr

/-- `alpha = 0.3` — the smoothing factor of `updateHighlightJoints`
(0 = keep old, 1 = jump to new). -/
def alpha : ℚ := 0.3

/-- `snapRadiusPx = 25` — within this pixel radius the old anchored position
is kept. -/
def snapRadiusPx : ℚ := 25

/-- The squared pixel-space distance between a previous and a new marker
position, computed exactly as in `updateHighlightJoints`: both normalized
positions are scaled by the current canvas width/height, then
`dx*dx + dy*dy`. -/
def distPxSq (c : Canvas) (prev joint : Marker) : ℚ :=
  let prevXpx := prev.x * c.width
  let prevYpx := prev.y * c.height
  let newXpx := joint.x * c.width
  let newYpx := joint.y * c.height
  let dx := newXpx - prevXpx
  let dy := newYpx - prevYpx
  dx * dx + dy * dy

/-- The per-marker body of the `newJoints.map(joint => ...)` callback in
`updateHighlightJoints`: look up the previous marker with the same name
(`lastHighlightJoints.find(p => p.name === joint.name)`); keep the new one
verbatim when there is none; otherwise snap to the previous position when the
pixel distance is below the snap radius, and blend
`alpha * new + (1 - alpha) * prev` componentwise otherwise. -/
def smoothJoint (c : Canvas) (last : List Marker) (joint : Marker) : Marker :=
  match last.find? (fun p => p.name == joint.name) with
  | none => joint
  | some prev =>
    if distPxSq c prev joint < snapRadiusPx * snapRadiusPx then
      prev
    else
      { name := joint.name
        x := alpha * joint.x + (1 - alpha) * prev.x
        y := alpha * joint.y + (1 - alpha) * prev.y }

/-- `updateHighlightJoints(newJoints)` from `main.js`, with the module state
made explicit: `surface` is the canvas/context pair (`none` when
`!canvas || !ctx`), `last` the persisted `lastHighlightJoints`, and the
result the new persisted `lastHighlightJoints`.  When the surface is missing
or `newJoints` is empty the persisted state is cleared; otherwise each new
joint is smoothed against the previous set. -/
def updateHighlightJoints (surface : Option Canvas) (last newJoints : List Marker) :
    List Marker :=
  match surface with
  | none => []
  | some c =>
    if newJoints.isEmpty then []
    else newJoints.map (smoothJoint c last)

/-- Justification for embedding the source's `Math.sqrt(d) < r` test as
`d < r * r`: for a nonnegative squared distance `d` and positive radius `r`,
the two comparisons are equivalent over the reals. -/
theorem sqrt_lt_iff_sq_lt_sq (d r : ℝ) (hr : 0 < r) :
    Real.sqrt d < r ↔ d < r * r := by
  rw [show r * r = r ^ 2 by ring]
  exact Real.sqrt_lt' hr

/-- A marker found by name in a list satisfies the name predicate. -/
lemma find?_name_eq {last : List Marker} {j prev : Marker}
    (h : last.find? (fun p => p.name == j.name) = some prev) :
    prev.name = j.name := by
  have := List.find?_some h
  simpa using this

/-- In a list whose marker names are pairwise distinct, the first marker
found with a member's name is that member itself. -/
lemma find?_name_self {last : List Marker} (hnd : (last.map Marker.name).Nodup)
    {j : Marker} (hj : j ∈ last) :
    last.find? (fun p => p.name == j.name) = some j := by
  induction last with
  | nil => cases hj
  | cons a t ih =>
    simp only [List.map_cons, List.nodup_cons] at hnd
    rcases List.mem_cons.mp hj with rfl | hj'
    · simp [List.find?_cons]
    · have hne : (a.name == j.name) = false := by
        refine beq_eq_false_iff_ne.mpr ?_
        intro hcontra
        exact hnd.1 (hcontra ▸ List.mem_map_of_mem Marker.name hj')
      rw [List.find?_cons, hne]
      exact ih hnd.2 hj'

/-- `smoothJoint` never changes the marker name: the verbatim and blend
branches keep `joint.name`, and the snap branch returns the previous marker,
which was matched by name. -/
lemma smoothJoint_name (c : Canvas) (last : List Marker) (j : Marker) :
    (smoothJoint c last j).name = j.name := by
  cases hf : last.find? (fun p => p.name == j.name) with
  | none => simp [smoothJoint, hf]
  | some prev =>
    have hpn : prev.name = j.name := find?_name_eq hf
    simp only [smoothJoint, hf]
    split
    · exact hpn
    · rfl

/-- A marker whose name lookup returns itself is left unchanged by
`smoothJoint`: its pixel distance to itself is `0 < 25²`, so the snap branch
returns it. -/
lemma smoothJoint_self (c : Canvas) (last : List Marker) (j : Marker)
    (hf : last.find? (fun p => p.name == j.name) = some j) :
    smoothJoint c last j = j := by
  have hd : distPxSq c j j = 0 := by simp [distPxSq]
  simp only [smoothJoint, hf]
  rw [if_pos (by rw [hd]; norm_num [snapRadiusPx])]

/-- Claim C2: deadband property of the smoother — when a new marker matches a
previous persisted marker by name and its pixel-space distance from it
(via the current surface dimensions) is strictly below the 25-pixel snap
radius, the stored position after `updateHighlightJoints` is exactly the
prior marker, not a blend. -/
theorem updateHighlightJoints_deadband (c : Canvas) (last newJoints : List Marker)
    (i : ℕ) (joint prev : Marker)
    (hget : newJoints[i]? = some joint)
    (hfind : last.find? (fun p => p.name == joint.name) = some prev)
    (hdist : distPxSq c prev joint < snapRadiusPx * snapRadiusPx) :
    (updateHighlightJoints (some c) last newJoints)[i]? = some prev := by
  have hne : newJoints.isEmpty = false := by
    cases newJoints with
    | nil => simp at hget
    | cons a t => rfl
  show (if newJoints.isEmpty then [] else newJoints.map (smoothJoint c last))[i]?
      = some prev
  rw [if_neg (by simp [hne]), List.getElem?_map, hget]
  have : smoothJoint c last joint = prev := by
    simp only [smoothJoint, hfind]
    rw [if_pos hdist]
  rw [Option.map_some', this]

/-- Claim C2 witness: Scenario A — previous `left_knee` at (0.50, 0.50) on a
1000×1000 surface, new position (0.502, 0.501); squared pixel distance 5 is
below 625, so the stored marker stays (0.50, 0.50). -/
theorem updateHighlightJoints_deadband_witness :
    (([⟨"left_knee", 0.502, 0.501⟩] : List Marker)[0]?
        = some ⟨"left_knee", 0.502, 0.501⟩)
    ∧ (([⟨"left_knee", 0.5, 0.5⟩] : List Marker).find?
        (fun p => p.name == "left_knee") = some ⟨"left_knee", 0.5, 0.5⟩)
    ∧ distPxSq ⟨1000, 1000⟩ ⟨"left_knee", 0.5, 0.5⟩ ⟨"left_knee", 0.502, 0.501⟩
        < snapRadiusPx * snapRadiusPx
    ∧ (updateHighlightJoints (some ⟨1000, 1000⟩) [⟨"left_knee", 0.5, 0.5⟩]
        [⟨"left_knee", 0.502, 0.501⟩])[0]? = some ⟨"left_knee", 0.5, 0.5⟩ :=
  ⟨rfl, by norm_num [List.find?], by norm_num [distPxSq, snapRadiusPx],
    updateHighlightJoints_deadband ⟨1000, 1000⟩ [⟨"left_knee", 0.5, 0.5⟩]
      [⟨"left_knee", 0.502, 0.501⟩] 0 ⟨"left_knee", 0.502, 0.501⟩
      ⟨"left_knee", 0.5, 0.5⟩ rfl (by norm_num [List.find?])
      (by norm_num [distPxSq, snapRadiusPx])⟩

/-- Claim C3: blend property of the smoother — when a new marker matches a
previous persisted marker by name and its pixel-space distance is at least
the 25-pixel snap radius, the stored normalized position is
`alpha * new + (1 - alpha) * prev` componentwise with `alpha = 0.3`. -/
theorem updateHighlightJoints_blend (c : Canvas) (last newJoints : List Marker)
    (i : ℕ) (joint prev : Marker)
    (hget : newJoints[i]? = some joint)
    (hfind : last.find? (fun p => p.name == joint.name) = some prev)
    (hdist : snapRadiusPx * snapRadiusPx ≤ distPxSq c prev joint) :
    (updateHighlightJoints (some c) last newJoints)[i]?
      = some { name := joint.name
               x := alpha * joint.x + (1 - alpha) * prev.x
               y := alpha * joint.y + (1 - alpha) * prev.y } := by
  have hne : newJoints.isEmpty = false := by
    cases newJoints with
    | nil => simp at hget
    | cons a t => rfl
  show (if newJoints.isEmpty then [] else newJoints.map (smoothJoint c last))[i]?
      = some _
  rw [if_neg (by simp [hne]), List.getElem?_map, hget]
  have : smoothJoint c last joint
      = { name := joint.name
          x := alpha * joint.x + (1 - alpha) * prev.x
          y := alpha * joint.y + (1 - alpha) * prev.y } := by
    simp only [smoothJoint, hfind]
    rw [if_neg (not_lt.mpr hdist)]
  rw [Option.map_some', this]

/-- Claim C3 witness: Scenario B — previous `left_knee` at (0.50, 0.50) on a
1000×1000 surface, new position (0.60, 0.50); pixel distance 100 ≥ 25, so the
stored marker becomes (0.3·0.60 + 0.7·0.50, 0.50) = (0.53, 0.50). -/
theorem updateHighlightJoints_blend_witness :
    (([⟨"left_knee", 0.6, 0.5⟩] : List Marker)[0]? = some ⟨"left_knee", 0.6, 0.5⟩)
    ∧ (([⟨"left_knee", 0.5, 0.5⟩] : List Marker).find?
        (fun p => p.name == "left_knee") = some ⟨"left_knee", 0.5, 0.5⟩)
    ∧ snapRadiusPx * snapRadiusPx
        ≤ distPxSq ⟨1000, 1000⟩ ⟨"left_knee", 0.5, 0.5⟩ ⟨"left_knee", 0.6, 0.5⟩
    ∧ (updateHighlightJoints (some ⟨1000, 1000⟩) [⟨"left_knee", 0.5, 0.5⟩]
        [⟨"left_knee", 0.6, 0.5⟩])[0]? = some ⟨"left_knee", 0.53, 0.5⟩ := by
  refine ⟨rfl, by norm_num [List.find?], by norm_num [distPxSq, snapRadiusPx], ?_⟩
  have := updateHighlightJoints_blend ⟨1000, 1000⟩ [⟨"left_knee", 0.5, 0.5⟩]
    [⟨"left_knee", 0.6, 0.5⟩] 0 ⟨"left_knee", 0.6, 0.5⟩ ⟨"left_knee", 0.5, 0.5⟩
    rfl (by norm_num [List.find?]) (by norm_num [distPxSq, snapRadiusPx])
  rw [this]
  norm_num [alpha]

/-- Claim C4: clearing property — for every surface state and every prior
persisted marker state, calling `updateHighlightJoints` with an empty marker
list empties the persisted state immediately. -/
theorem updateHighlightJoints_clear (surface : Option Canvas) (last : List Marker) :
    updateHighlightJoints surface last [] = [] := by
  cases surface <;> rfl

/-- Claim C10: when the drawing surface or its context is unavailable, the
smoother resets the persisted state to empty and discards the incoming
markers, even when they are non-empty. -/
theorem updateHighlightJoints_no_surface (last newJoints : List Marker) :
    updateHighlightJoints none last newJoints = [] := rfl

/-- Claim C5 counterexample: idempotence as stated fails on the code in two
ways.  With two persisted entries sharing the name `"a"`, re-submitting the
persisted set verbatim blends the second entry against the first instead of
keeping it; and with no drawing surface, re-submitting a non-empty persisted
set clears it. -/
theorem updateHighlightJoints_idem_cex :
    updateHighlightJoints (some ⟨1000, 1000⟩)
        [⟨"a", 0.1, 0.1⟩, ⟨"a", 0.9, 0.9⟩] [⟨"a", 0.1, 0.1⟩, ⟨"a", 0.9, 0.9⟩]
      ≠ [⟨"a", 0.1, 0.1⟩, ⟨"a", 0.9, 0.9⟩]
    ∧ updateHighlightJoints none [⟨"a", 0.1, 0.1⟩] [⟨"a", 0.1, 0.1⟩]
      ≠ [⟨"a", 0.1, 0.1⟩] := by
  constructor
  · norm_num [updateHighlightJoints, smoothJoint, distPxSq, alpha, snapRadiusPx,
      List.find?]
  · norm_num [updateHighlightJoints]

/-- Claim C5 (amended): idempotence of the smoother — when the drawing
surface is available and the persisted set has pairwise-distinct marker
names, calling `updateHighlightJoints` with the previous persisted set
itself leaves the persisted set unchanged (each marker snaps to itself at
distance 0). -/
theorem updateHighlightJoints_idem (c : Canvas) (last : List Marker)
    (hnd : (last.map Marker.name).Nodup) :
    updateHighlightJoints (some c) last last = last := by
  cases last with
  | nil => rfl
  | cons a t =>
    have hid : ∀ j ∈ a :: t, smoothJoint c (a :: t) j = j := fun j hj =>
      smoothJoint_self c (a :: t) j (find?_name_self hnd hj)
    show (if (a :: t).isEmpty then [] else (a :: t).map (smoothJoint c (a :: t)))
        = a :: t
    rw [if_neg (by simp)]
    calc (a :: t).map (smoothJoint c (a :: t))
        = (a :: t).map id := List.map_congr_left hid
      _ = a :: t := List.map_id (a :: t)

/-- Claim C5 witness: a two-marker persisted set with distinct names is
returned unchanged when re-submitted on a 1000×1000 surface. -/
theorem updateHighlightJoints_idem_witness :
    (([⟨"a", 0.5, 0.5⟩, ⟨"b", 0.25, 0.75⟩] : List Marker).map Marker.name).Nodup
    ∧ updateHighlightJoints (some ⟨1000, 1000⟩)
        [⟨"a", 0.5, 0.5⟩, ⟨"b", 0.25, 0.75⟩] [⟨"a", 0.5, 0.5⟩, ⟨"b", 0.25, 0.75⟩]
      = [⟨"a", 0.5, 0.5⟩, ⟨"b", 0.25, 0.75⟩] :=
  ⟨by decide, updateHighlightJoints_idem ⟨1000, 1000⟩
    [⟨"a", 0.5, 0.5⟩, ⟨"b", 0.25, 0.75⟩] (by decide)⟩

/-- Claim C8 counterexample: with a duplicate name in the incoming marker
sequence, the persisted state after update keeps both entries, so it does not
contain at most one entry per name. -/
theorem updateHighlightJoints_nodup_cex :
    ¬ ((updateHighlightJoints (some ⟨1000, 1000⟩) []
        [⟨"a", 0.1, 0.1⟩, ⟨"a", 0.2, 0.2⟩]).map Marker.name).Nodup := by
  norm_num [updateHighlightJoints, smoothJoint, List.find?]

/-- Claim C8 (amended): per-name uniqueness — provided the incoming marker
sequence has at most one entry per name (as the data model requires of
`HighlightMarker`), the persisted state after any smoother update has at most
one entry per name, for every surface state and every prior state. -/
theorem updateHighlightJoints_nodup (surface : Option Canvas)
    (last newJoints : List Marker)
    (hnd : (newJoints.map Marker.name).Nodup) :
    ((updateHighlightJoints surface last newJoints).map Marker.name).Nodup := by
  cases surface with
  | none => simp [updateHighlightJoints]
  | some c =>
    show ((if newJoints.isEmpty then []
        else newJoints.map (smoothJoint c last)).map Marker.name).Nodup
    by_cases h : newJoints.isEmpty
    · rw [if_pos h]; simp
    · rw [if_neg h, List.map_map]
      have : newJoints.map (Marker.name ∘ smoothJoint c last)
          = newJoints.map Marker.name :=
        List.map_congr_left (fun j _ => smoothJoint_name c last j)
      rw [this]
      exact hnd

/-- Claim C8 witness: two incoming markers with distinct names produce a
persisted state whose names are still pairwise distinct. -/
theorem updateHighlightJoints_nodup_witness :
    (([⟨"a", 0.1, 0.1⟩, ⟨"b", 0.2, 0.2⟩] : List Marker).map Marker.name).Nodup
    ∧ ((updateHighlightJoints (some ⟨1000, 1000⟩) [⟨"a", 0.5, 0.5⟩]
        [⟨"a", 0.1, 0.1⟩, ⟨"b", 0.2, 0.2⟩]).map Marker.name).Nodup :=
  ⟨by decide, updateHighlightJoints_nodup (some ⟨1000, 1000⟩) [⟨"a", 0.5, 0.5⟩]
    [⟨"a", 0.1, 0.1⟩, ⟨"b", 0.2, 0.2⟩] (by decide)⟩

/-- The decoded body of a `/process_frame` response (§6 of the wire contract):
all fields the client reads.  Optional fields are `Option`s; JavaScript
truthiness tests on strings are modelled by `strTruthy`. -/
structure ResponseData where
  pose_text : String
  confidence : ℚ
  feedback_text : Option String
  has_pose : Bool
  angles : Option (List (String × ℚ))
  visibility : Option (List (String × ℚ))
  highlight_joints : Option (List Marker)
  error : Option String
deriving Repr

/-- JavaScript truthiness of an optional string field: `undefined`/`null` and
the empty string are falsy, every other string is truthy. -/
def strTruthy : Option String → Bool
  | none => false
  | some s => !s.isEmpty

/-- `Math.round` on an exact rational: round half toward positive infinity. -/
def jsRound (q : ℚ) : ℤ := ⌊q + 1 / 2⌋

/-- The module-level client state of `main.js` made explicit: the streaming
and in-flight flags, the FPS accounting triple (`fps`, `frameCount`,
`lastTime`), the canvas surface, the persisted markers, and the UI text
fields the response handler writes.  `outstanding` is a ghost counter of
issued-but-unsettled `/process_frame` requests, used to state the
one-in-flight invariant. -/
structure ClientState where
  isStreaming : Bool
  isProcessingFrame : Bool
  outstanding : ℕ
  surface : Option Canvas
  fps : ℕ
  frameCount : ℕ
  lastTime : ℤ
  lastHighlightJoints : List Marker
  poseStatus : String
  confidenceText : String
  feedbackText : String
  anglesVisible : Bool
deriving Repr

/-- `updateUI(data)` from `main.js`, restricted to the state it writes: pose
status text, confidence text (rounded percentage when positive, empty
otherwise), feedback text (shown when truthy), and visibility of the angles
panel (`has_pose && angles`).  CSS class toggling and the DOM list of angle
entries are presentation detail with no further state. -/
def updateUIState (data : ResponseData) (st : ClientState) : ClientState :=
  { st with
    poseStatus := data.pose_text
    confidenceText :=
      if 0 < data.confidence then
        "Confidence: " ++ toString (jsRound (data.confidence * 100)) ++ "%"
      else ""
    feedbackText :=
      if strTruthy data.feedback_text then data.feedback_text.getD "" else ""
    anglesVisible := data.has_pose && data.angles.isSome }

/-- How one `/process_frame` request settles: a decoded body, a transport
failure (`fetch` rejection), or a malformed body (`response.json()`
rejection). -/
inductive Outcome where
  | success (data : ResponseData)
  | transportFailure
  | malformed
deriving Repr

/-- The settlement of one capture cycle: the `.then`/`.catch`/`.finally`
chain of `captureAndProcess`.  On success with a truthy `error` field only
the status text is written; on success otherwise `updateUI` runs and the
smoother consumes `data.highlight_joints || []`; transport failures and
malformed bodies only log.  The `.finally` clears the in-flight flag on
every path. -/
def settleCycle (o : Outcome) (st : ClientState) : ClientState :=
  let st1 :=
    match o with
    | .success data =>
      if strTruthy data.error then
        { st with poseStatus := "Error: " ++ data.error.getD "" }
      else
        let st2 := updateUIState data st
        let newMarkers :=
          updateHighlightJoints st.surface st.lastHighlightJoints
            (data.highlight_joints.getD [])
        { st2 with lastHighlightJoints := newMarkers }
    | .transportFailure => st
    | .malformed => st
  { st1 with isProcessingFrame := false }

/-- The synchronous prefix of `captureAndProcess()`: the re-entrancy guard
(`if (isProcessingFrame || !isStreaming) return`), then setting the
in-flight flag and issuing the request (drawing the frame and markers onto
the canvas has no effect on the modelled state; the issued request is
counted in the `outstanding` ghost field). -/
def captureAndProcessStart (st : ClientState) : ClientState :=
  if st.isProcessingFrame || !st.isStreaming then st
  else { st with isProcessingFrame := true, outstanding := st.outstanding + 1 }

/-- The FPS block at the top of `startProcessing()`: increment the frame
counter; when at least 1000 ms have elapsed since the window start, publish
the incremented counter as `fps` and reset the counter and the window
start. -/
def fpsTick (now : ℤ) (st : ClientState) : ClientState :=
  let newCount := st.frameCount + 1
  if 1000 ≤ now - st.lastTime then
    { st with fps := newCount, frameCount := 0, lastTime := now }
  else
    { st with frameCount := newCount }

/-- One tick of `startProcessing()`: bail out when not streaming, update the
FPS accounting, and start a new capture cycle only when no request is
in flight.  (The unconditional re-registration via `requestAnimationFrame`
is the event trace itself.) -/
def startProcessing (now : ℤ) (st : ClientState) : ClientState :=
  if !st.isStreaming then st
  else if !(fpsTick now st).isProcessingFrame then
    captureAndProcessStart (fpsTick now st)
  else fpsTick now st

/-- The externally visible events driving the client: session start
(camera acquired, canvas sized), an animation-frame tick, the settlement of
the outstanding request, and session stop. -/
inductive Event where
  | start (c : Canvas)
  | tick (now : ℤ)
  | settle (o : Outcome)
  | stop

/-- One step of the single-threaded event loop.  A `settle` event is a no-op
when no request is outstanding (it can only be delivered for an issued
request); otherwise it runs the settlement chain and retires the request. -/
def step (st : ClientState) (e : Event) : ClientState :=
  match e with
  | .start c => { st with isStreaming := true, surface := some c }
  | .tick now => startProcessing now st
  | .settle o =>
    if st.outstanding = 0 then st
    else { settleCycle o st with outstanding := st.outstanding - 1 }
  | .stop =>
    { st with isStreaming := false, poseStatus := "Session stopped", feedbackText := "", confidenceText := "", anglesVisible := false }

/-- The initial module state of `main.js` (`fps = 30`, nothing streaming,
nothing in flight, no persisted markers). -/
def initState : ClientState :=
  { isStreaming := false, isProcessingFrame := false, outstanding := 0,
    surface := none, fps := 30, frameCount := 0, lastTime := 0,
    lastHighlightJoints := [], poseStatus := "", confidenceText := "",
    feedbackText := "", anglesVisible := false }

/-- Run the client from its initial state over a trace of events. -/
def runEvents (evs : List Event) : ClientState := evs.foldl step initState

/-- The `.finally` clause clears the in-flight flag on every settlement
path. -/
lemma settleCycle_flag (o : Outcome) (st : ClientState) :
    (settleCycle o st).isProcessingFrame = false := rfl

/-- The FPS block does not touch the in-flight flag. -/
lemma fpsTick_flag (now : ℤ) (st : ClientState) :
    (fpsTick now st).isProcessingFrame = st.isProcessingFrame := by
  unfold fpsTick
  by_cases h : 1000 ≤ now - st.lastTime <;> simp [h]

/-- The FPS block does not touch the outstanding-request count. -/
lemma fpsTick_outstanding (now : ℤ) (st : ClientState) :
    (fpsTick now st).outstanding = st.outstanding := by
  unfold fpsTick
  by_cases h : 1000 ≤ now - st.lastTime <;> simp [h]

/-- Number of requests the in-flight flag accounts for. -/
def inflightCount (st : ClientState) : ℕ :=
  if st.isProcessingFrame then 1 else 0

/-- `captureAndProcessStart` keeps the outstanding count in step with the
in-flight flag: it issues a request exactly when it sets the flag. -/
lemma captureAndProcessStart_inflight (st : ClientState)
    (h : st.outstanding = inflightCount st) :
    (captureAndProcessStart st).outstanding
      = inflightCount (captureAndProcessStart st) := by
  unfold captureAndProcessStart
  split
  · exact h
  · rename_i hc
    simp only [Bool.or_eq_true, Bool.not_eq_true', not_or] at hc
    simp [inflightCount, hc.1] at h
    simp [inflightCount, h]

/-- Every event step keeps the outstanding count equal to what the in-flight
flag accounts for. -/
lemma step_inflight (st : ClientState) (e : Event)
    (h : st.outstanding = inflightCount st) :
    (step st e).outstanding = inflightCount (step st e) := by
  cases e with
  | start c => simpa [step, inflightCount] using h
  | stop => simpa [step, inflightCount] using h
  | tick now =>
    simp only [step, startProcessing]
    split
    · exact h
    · split
      · exact captureAndProcessStart_inflight _
          (by rw [fpsTick_outstanding]
              rw [h]
              simp [inflightCount, fpsTick_flag])
      · rw [fpsTick_outstanding, h]
        simp [inflightCount, fpsTick_flag]
  | settle o =>
    simp only [step]
    split
    · exact h
    · rename_i hz
      have h1 : inflightCount st = 1 := by
        unfold inflightCount at h ⊢
        split at h
        · rename_i hf
          simp [hf]
        · exact absurd h hz
      have : st.outstanding = 1 := h.trans h1
      simp [inflightCount, settleCycle_flag, this]

/-- The invariant holds along every trace from a state satisfying it. -/
lemma foldl_inflight (evs : List Event) (st : ClientState)
    (h : st.outstanding = inflightCount st) :
    (evs.foldl step st).outstanding = inflightCount (evs.foldl step st) := by
  induction evs generalizing st with
  | nil => exact h
  | cons e t ih => exact ih (step st e) (step_inflight st e h)

/-- Claim C1: at every instant of the capture loop's execution — that is,
after every event trace from the initial state — the count of outstanding
`/process_frame` requests is 0 or 1: a tick starts a new capture cycle only
when the in-flight flag is clear, and the flag is set when the request is
issued. -/
theorem single_inflight (evs : List Event) :
    (runEvents evs).outstanding = 0 ∨ (runEvents evs).outstanding = 1 := by
  have h := foldl_inflight evs initState rfl
  rw [runEvents]
  rw [h]
  unfold inflightCount
  split
  · right; rfl
  · left; rfl

/-- `captureAndProcessStart` does not touch the FPS accounting fields. -/
lemma captureAndProcessStart_fps (st : ClientState) :
    (captureAndProcessStart st).fps = st.fps
    ∧ (captureAndProcessStart st).frameCount = st.frameCount
    ∧ (captureAndProcessStart st).lastTime = st.lastTime := by
  unfold captureAndProcessStart
  split <;> simp

/-- Claim C6: guaranteed release of the in-flight guard — whenever
`captureAndProcess` proceeds past its entry guard (streaming, nothing in
flight) it sets the in-flight flag, and the settlement chain clears the flag
on every completion path (decoded response with or without an `error` field,
transport failure, malformed body), so a single failed cycle never
permanently prevents subsequent ticks from starting a new capture. -/
theorem inflight_guard_release :
    (∀ st : ClientState, st.isStreaming = true → st.isProcessingFrame = false →
      (captureAndProcessStart st).isProcessingFrame = true)
    ∧ ∀ (o : Outcome) (st : ClientState),
      (settleCycle o st).isProcessingFrame = false := by
  constructor
  · intro st hs hp
    simp [captureAndProcessStart, hs, hp]
  · intro o st
    exact settleCycle_flag o st

/-- Claim C6 witness: from a freshly started session, entering the capture
cycle sets the flag and settling a transport failure clears it. -/
theorem inflight_guard_release_witness :
    ({ initState with isStreaming := true } : ClientState).isStreaming = true
    ∧ ({ initState with isStreaming := true } : ClientState).isProcessingFrame = false
    ∧ (captureAndProcessStart { initState with isStreaming := true }).isProcessingFrame = true
    ∧ (settleCycle Outcome.transportFailure { initState with isStreaming := true }).isProcessingFrame = false :=
  ⟨rfl, rfl, inflight_guard_release.1 _ rfl rfl,
    inflight_guard_release.2 Outcome.transportFailure _⟩

/-- Claim C7: error-field atomicity — when the decoded body carries a
non-empty `error` field, the cycle is treated as failed: the status text
becomes `"Error: " ++ e`, and neither the smoother update nor the other UI
updates run, so the persisted marker state (and the confidence, feedback and
angle-panel state) is exactly what it was before the call. -/
theorem error_field_atomicity (data : ResponseData) (st : ClientState) (e : String)
    (herr : data.error = some e) (hne : e ≠ "") :
    (settleCycle (Outcome.success data) st).lastHighlightJoints
        = st.lastHighlightJoints
    ∧ (settleCycle (Outcome.success data) st).poseStatus = "Error: " ++ e
    ∧ (settleCycle (Outcome.success data) st).confidenceText = st.confidenceText
    ∧ (settleCycle (Outcome.success data) st).feedbackText = st.feedbackText
    ∧ (settleCycle (Outcome.success data) st).anglesVisible = st.anglesVisible := by
  have hie : e.isEmpty = false := by
    cases he : e.isEmpty
    · rfl
    · exact absurd ((String.isEmpty_iff e).mp he) hne
  simp [settleCycle, herr, strTruthy, hie]

/-- Sample response carrying a service-reported error. -/
def errResponse : ResponseData :=
  { pose_text := "Tree Pose", confidence := 0.9, feedback_text := none,
    has_pose := true, angles := none, visibility := none,
    highlight_joints := some [⟨"left_knee", 0.4, 0.6⟩],
    error := some "model failure" }

/-- Sample mid-session state with one persisted marker. -/
def markedState : ClientState :=
  { initState with
      isStreaming := true
      isProcessingFrame := true
      surface := some ⟨1000, 1000⟩
      lastHighlightJoints := [⟨"a", 0.5, 0.5⟩] }

/-- Claim C7 witness: Scenario E — a response with `error: "model failure"`
leaves the persisted marker untouched and sets the status text to
`Error: model failure`. -/
theorem error_field_atomicity_witness :
    errResponse.error = some "model failure"
    ∧ "model failure" ≠ ""
    ∧ (settleCycle (Outcome.success errResponse) markedState).lastHighlightJoints
        = [⟨"a", 0.5, 0.5⟩]
    ∧ (settleCycle (Outcome.success errResponse) markedState).poseStatus
        = "Error: model failure" := by
  have h := error_field_atomicity errResponse markedState "model failure" rfl
    (by decide)
  refine ⟨rfl, by decide, ?_, h.2.1⟩
  rw [h.1]
  rfl

/-- Claim C9: FPS accounting — every tick increments the frame counter;
when at least one second has elapsed since the window start, the tick
publishes the incremented counter as `fps` and resets the counter and the
window start to the current time; otherwise `fps` and the window start are
unchanged.  A streaming tick leaves the FPS fields exactly as the FPS block
computed them (starting a capture cycle does not touch them). -/
theorem fps_accounting (now : ℤ) (st : ClientState) :
    (1000 ≤ now - st.lastTime →
      (fpsTick now st).fps = st.frameCount + 1
      ∧ (fpsTick now st).frameCount = 0
      ∧ (fpsTick now st).lastTime = now)
    ∧ (now - st.lastTime < 1000 →
      (fpsTick now st).fps = st.fps
      ∧ (fpsTick now st).frameCount = st.frameCount + 1
      ∧ (fpsTick now st).lastTime = st.lastTime)
    ∧ (st.isStreaming = true →
      (startProcessing now st).fps = (fpsTick now st).fps
      ∧ (startProcessing now st).frameCount = (fpsTick now st).frameCount
      ∧ (startProcessing now st).lastTime = (fpsTick now st).lastTime) := by
  refine ⟨?_, ?_, ?_⟩
  · intro h
    simp [fpsTick, h]
  · intro h
    simp [fpsTick, not_le.mpr h]
  · intro hs
    simp only [startProcessing, hs, Bool.not_true]
    rw [if_neg (by simp)]
    split
    · exact captureAndProcessStart_fps _
    · exact ⟨rfl, rfl, rfl⟩

/-- Claim C9 witness: from the initial state (window start 0), a tick at
1500 ms publishes `fps = 1` and resets the counter and window start, while a
tick at 500 ms leaves `fps` at its initial value 30. -/
theorem fps_accounting_witness :
    (1000 ≤ (1500 : ℤ) - initState.lastTime)
    ∧ (fpsTick 1500 initState).fps = initState.frameCount + 1
    ∧ (fpsTick 1500 initState).frameCount = 0
    ∧ (fpsTick 1500 initState).lastTime = 1500
    ∧ ((500 : ℤ) - initState.lastTime < 1000)
    ∧ (fpsTick 500 initState).fps = initState.fps := by
  have h1 := (fps_accounting 1500 initState).1 (by decide)
  have h2 := (fps_accounting 500 initState).2.1 (by decide)
  exact ⟨by decide, h1.1, h1.2.1, h1.2.2, by decide, h2.1⟩
